import Mathlib

/-!
Verification of the Mind-Care monitoring service (Flask + PostgreSQL).

The development shallowly embeds the logic of `src/app.py` / `src/main.py`
(the two files are near-identical revisions; where both define a symbol the
definitions agree, and the embedding follows the common text):

* the door command store (`/api/solenoid`, `/api/solenoid/check`,
  `/api/door_log` acting on the `door` table),
* the sensor validator `validate_sensor_data`,
* the window advisory `calculate_window_status`,
* the handlers `api_temp_fugt`, `api_door_log` and `login`.

Time is modelled in integer seconds; Python floats are modelled as rationals
extended with the IEEE special values (NaN and the infinities), with IEEE
comparison semantics (`NaN` compares false against everything).
-/

/-! ## Constants (src/app.py lines 15-25) -/

def MAX_TEMPERATURE : ℚ := 100
def MIN_TEMPERATURE : ℚ := -50
def MAX_HUMIDITY : ℚ := 100
def MIN_HUMIDITY : ℚ := 0
def MAX_INPUT_LENGTH : Nat := 100
def COMMAND_TIMEOUT_SECONDS : Int := 10
def WINDOW_TEMP_THRESHOLD : ℚ := 25
def WINDOW_HUMIDITY_THRESHOLD : ℚ := 70

/-- The retirement offset: `INTERVAL '1 hour'` in the UPDATE of
`api_solenoid_check` (src/app.py line 453), in seconds. -/
def RETIRE_OFFSET_SECONDS : Int := 3600

/-! ## The door table and the command store

`door(id, is_the_door_open, timestamp)`.  `id` is a serial column assigned by
the store; `timestamp` is modelled in integer seconds. -/

structure DoorRecord where
  id : Nat
  is_the_door_open : Bool
  timestamp : Int
deriving Repr, DecidableEq

structure DoorStore where
  records : List DoorRecord
  nextId : Nat
deriving Repr, DecidableEq

def emptyStore : DoorStore := ⟨[], 1⟩

/-- `POST /api/solenoid` with a valid action (src/app.py lines 404-411):
`INSERT INTO door (is_the_door_open, timestamp) VALUES (%s, NOW())`. -/
def issue (s : DoorStore) (is_open : Bool) (now : Int) : DoorStore :=
  ⟨s.records ++ [⟨s.nextId, is_open, now⟩], s.nextId + 1⟩

/-- `POST /api/door_log` insert (src/app.py lines 501-505):
`INSERT INTO door (is_the_door_open, timestamp) VALUES (%s, %s)` with a
client-supplied timestamp. -/
def logRecord (s : DoorStore) (is_open : Bool) (ts : Int) : DoorStore :=
  ⟨s.records ++ [⟨s.nextId, is_open, ts⟩], s.nextId + 1⟩

/-- The freshness predicate of the SELECT in `api_solenoid_check`
(src/app.py line 441): `timestamp > NOW() - INTERVAL '10 seconds'`. -/
def isFresh (now : Int) (r : DoorRecord) : Bool :=
  decide (now - COMMAND_TIMEOUT_SECONDS < r.timestamp)

/-- `ORDER BY timestamp DESC LIMIT 1` over the fresh rows.  The SQL fixes no
order among rows with equal timestamps; the model resolves such ties by the
larger `id` (later insertion).  All theorems below that quantify over stores
only rely on the selection at strictly distinct timestamps. -/
def betterRec (a b : DoorRecord) : Bool :=
  decide (b.timestamp < a.timestamp) ||
    (decide (a.timestamp = b.timestamp) && decide (b.id < a.id))

def pickLatest (rs : List DoorRecord) : Option DoorRecord :=
  rs.foldl
    (fun acc r =>
      match acc with
      | none => some r
      | some a => if betterRec r a then some r else some a)
    none

def selectFresh (now : Int) (rs : List DoorRecord) : List DoorRecord :=
  rs.filter (isFresh now)

/-- The UPDATE of `api_solenoid_check` (src/app.py lines 451-455):
`SET timestamp = timestamp - INTERVAL '1 hour' WHERE id = %s`. -/
def retireId (i : Nat) (rs : List DoorRecord) : List DoorRecord :=
  rs.map (fun r =>
    if r.id = i then { r with timestamp := r.timestamp - RETIRE_OFFSET_SECONDS }
    else r)

/-- `GET /api/solenoid/check` (src/app.py lines 428-472): select the latest
fresh row; if one exists, tombstone it by shifting its timestamp back one
hour and return its command, else return `null`. -/
def poll (s : DoorStore) (now : Int) : Option String × DoorStore :=
  match pickLatest (selectFresh now s.records) with
  | none => (none, s)
  | some r =>
      (some (if r.is_the_door_open then "open" else "close"),
       ⟨retireId r.id s.records, s.nextId⟩)

/-- The command string derived from a stored flag (src/app.py line 448). -/
def cmdOf (b : Bool) : String := if b then "open" else "close"

/-- A sequence of `POST /api/solenoid` calls with no intervening poll:
each pair is (is_open flag, insertion time). -/
def issueSeq : DoorStore → List (Bool × Int) → DoorStore
  | s, [] => s
  | s, c :: cs => issueSeq (issue s c.1 c.2) cs

/-- The rows such a sequence appends, with serial ids starting at `i`. -/
def newRecs : Nat → List (Bool × Int) → List DoorRecord
  | _, [] => []
  | i, c :: cs => ⟨i, c.1, c.2⟩ :: newRecs (i + 1) cs

/-! ## Helper lemmas on the command store -/

theorem filter_stale_nil (now : Int) (rs : List DoorRecord)
    (h : ∀ r ∈ rs, r.timestamp ≤ now - COMMAND_TIMEOUT_SECONDS) :
    rs.filter (isFresh now) = [] := by
  rw [List.filter_eq_nil_iff]
  intro r hr
  have := h r hr
  simp only [isFresh, decide_eq_true_eq]
  omega

theorem retireId_le {c : Int} (i : Nat) (rs : List DoorRecord)
    (h : ∀ r ∈ rs, r.timestamp ≤ c) :
    ∀ r ∈ retireId i rs, r.timestamp ≤ c := by
  intro r hr
  simp only [retireId, List.mem_map] at hr
  obtain ⟨a, ha, rfl⟩ := hr
  have := h a ha
  by_cases hid : a.id = i <;> simp [hid, RETIRE_OFFSET_SECONDS] <;> omega

theorem poll_fst_eq_of_selectFresh_eq (s₁ s₂ : DoorStore) (now : Int)
    (h : selectFresh now s₁.records = selectFresh now s₂.records) :
    (poll s₁ now).1 = (poll s₂ now).1 := by
  unfold poll
  rw [h]
  cases pickLatest (selectFresh now s₂.records) <;> rfl

theorem retireId_append (i : Nat) (xs ys : List DoorRecord) :
    retireId i (xs ++ ys) = retireId i xs ++ retireId i ys := by
  simp [retireId]

theorem retireId_eq_self (i : Nat) (rs : List DoorRecord)
    (h : ∀ a ∈ rs, a.id ≠ i) : retireId i rs = rs := by
  induction rs with
  | nil => rfl
  | cons a rs ih =>
      have ha := h a (List.mem_cons_self a rs)
      have htl := ih (fun b hb => h b (List.mem_cons_of_mem a hb))
      simp only [retireId, List.map_cons, if_neg ha]
      simp only [retireId] at htl
      rw [htl]

theorem filter_fresh_self (now : Int) (rs : List DoorRecord)
    (h : ∀ r ∈ rs, isFresh now r = true) :
    rs.filter (isFresh now) = rs :=
  List.filter_eq_self.mpr h

theorem issueSeq_records (cs : List (Bool × Int)) : ∀ s : DoorStore,
    (issueSeq s cs).records = s.records ++ newRecs s.nextId cs := by
  induction cs with
  | nil => intro s; simp [issueSeq, newRecs]
  | cons c cs ih =>
      intro s
      show (issueSeq (issue s c.1 c.2) cs).records = _
      rw [ih]
      simp [issue, newRecs]

theorem newRecs_append (xs ys : List (Bool × Int)) : ∀ i : Nat,
    newRecs i (xs ++ ys) = newRecs i xs ++ newRecs (i + xs.length) ys := by
  induction xs with
  | nil => intro i; simp [newRecs]
  | cons c xs ih =>
      intro i
      show (⟨i, c.1, c.2⟩ : DoorRecord) :: newRecs (i + 1) (xs ++ ys) = _
      rw [ih (i + 1)]
      have hlen : i + 1 + xs.length = i + (c :: xs).length := by
        simp only [List.length_cons]
        omega
      rw [hlen]
      simp [newRecs]

theorem mem_newRecs (cs : List (Bool × Int)) : ∀ i : Nat, ∀ r ∈ newRecs i cs,
    (∃ c ∈ cs, r.is_the_door_open = c.1 ∧ r.timestamp = c.2) ∧
    i ≤ r.id ∧ r.id < i + cs.length := by
  induction cs with
  | nil => intro i r hr; simp [newRecs] at hr
  | cons c cs ih =>
      intro i r hr
      simp only [newRecs, List.mem_cons] at hr
      rcases hr with rfl | hr
      · refine ⟨⟨c, List.mem_cons_self c cs, rfl, rfl⟩, le_refl i, ?_⟩
        simp only [List.length_cons]
        omega
      · obtain ⟨⟨d, hd, h1, h2⟩, h3, h4⟩ := ih (i + 1) r hr
        refine ⟨⟨d, List.mem_cons_of_mem c hd, h1, h2⟩, by omega, ?_⟩
        simp only [List.length_cons]
        omega

theorem pickStep_foldl_mem (rs : List DoorRecord) :
    ∀ (acc : Option DoorRecord) (a : DoorRecord),
    rs.foldl
      (fun acc r =>
        match acc with
        | none => some r
        | some x => if betterRec r x then some r else some x) acc = some a →
    acc = some a ∨ a ∈ rs := by
  induction rs with
  | nil => intro acc a h; exact Or.inl h
  | cons r rs ih =>
      intro acc a h
      rw [List.foldl_cons] at h
      rcases ih _ a h with h1 | h1
      · cases acc with
        | none =>
            simp only [Option.some.injEq] at h1
            exact Or.inr (h1 ▸ List.mem_cons_self r rs)
        | some x =>
            by_cases hb : betterRec r x
            · simp only [hb, if_true, Option.some.injEq] at h1
              exact Or.inr (h1 ▸ List.mem_cons_self r rs)
            · simp [hb] at h1
              exact Or.inl (by simp [h1])
      · exact Or.inr (List.mem_cons_of_mem r h1)

theorem pickLatest_mem (rs : List DoorRecord) (a : DoorRecord)
    (h : pickLatest rs = some a) : a ∈ rs := by
  rcases pickStep_foldl_mem rs none a h with h1 | h1
  · exact absurd h1 (by simp)
  · exact h1

theorem pickLatest_append_last (xs : List DoorRecord) (r : DoorRecord)
    (h : ∀ a ∈ xs, a.timestamp < r.timestamp) :
    pickLatest (xs ++ [r]) = some r := by
  have hsplit : pickLatest (xs ++ [r]) =
      match pickLatest xs with
      | none => some r
      | some x => if betterRec r x then some r else some x := by
    unfold pickLatest
    rw [List.foldl_append]
    rfl
  rw [hsplit]
  cases hx : pickLatest xs with
  | none => rfl
  | some x =>
      have hlt := h x (pickLatest_mem xs x hx)
      simp [betterRec, hlt]

/-! ## Claim theorems: command store -/

/-- C1: after `issue true` (POST /api/solenoid, action "open") into a store
with no fresh rows, a poll inside the freshness window returns the command
"open", and a second poll performed immediately after returns none. -/
theorem C1_issue_poll_once (s : DoorStore) (t now : Int)
    (hstale : ∀ r ∈ s.records, r.timestamp ≤ now - COMMAND_TIMEOUT_SECONDS)
    (hfresh : now - COMMAND_TIMEOUT_SECONDS < t) (hle : t ≤ now) :
    (poll (issue s true t) now).1 = some "open" ∧
    (poll (poll (issue s true t) now).2 now).1 = none := by
  have hfil : selectFresh now (issue s true t).records =
      [⟨s.nextId, true, t⟩] := by
    simp only [issue, selectFresh, List.filter_append,
      filter_stale_nil now s.records hstale, List.nil_append]
    simp [isFresh, hfresh]
  have hpoll : poll (issue s true t) now =
      (some "open",
       ⟨retireId s.nextId (issue s true t).records, s.nextId + 1⟩) := by
    unfold poll
    rw [hfil]
    rfl
  refine ⟨by rw [hpoll], ?_⟩
  rw [hpoll]
  have hstale2 : ∀ r ∈ retireId s.nextId (issue s true t).records,
      r.timestamp ≤ now - COMMAND_TIMEOUT_SECONDS := by
    intro r hr
    rw [show (issue s true t).records = s.records ++ [⟨s.nextId, true, t⟩] from rfl,
      retireId_append] at hr
    rcases List.mem_append.1 hr with h1 | h1
    · exact retireId_le s.nextId s.records hstale r h1
    · simp [retireId, RETIRE_OFFSET_SECONDS] at h1
      subst h1
      simp only [COMMAND_TIMEOUT_SECONDS]
      omega
  have : selectFresh now (retireId s.nextId (issue s true t).records) = [] :=
    filter_stale_nil now _ hstale2
  simp [poll, this, pickLatest]

/-- C1 witness: the empty store, issue at time 0, both polls at time 0. -/
theorem C1_issue_poll_once_witness :
    (poll (issue emptyStore true 0) 0).1 = some "open" ∧
    (poll (poll (issue emptyStore true 0) 0).2 0).1 = none :=
  C1_issue_poll_once emptyStore 0 0 (by simp [emptyStore])
    (by decide) (by decide)

/-- C4: a command issued at time `t` and polled only at a time
`now ≥ t + COMMAND_TIMEOUT_SECONDS` (store otherwise stale) is never
delivered: the poll returns none. -/
theorem C4_expired_not_delivered (s : DoorStore) (b : Bool) (t now : Int)
    (hstale : ∀ r ∈ s.records, r.timestamp ≤ now - COMMAND_TIMEOUT_SECONDS)
    (hexp : t + COMMAND_TIMEOUT_SECONDS ≤ now) :
    (poll (issue s b t) now).1 = none := by
  have hfil : selectFresh now (issue s b t).records = [] := by
    apply filter_stale_nil
    intro r hr
    rw [show (issue s b t).records = s.records ++ [⟨s.nextId, b, t⟩] from rfl] at hr
    rcases List.mem_append.1 hr with h1 | h1
    · exact hstale r h1
    · simp at h1
      subst h1
      simp only [COMMAND_TIMEOUT_SECONDS] at *
      omega
  simp [poll, hfil, pickLatest]

/-- C4 witness: empty store, issue at 0, poll at 10. -/
theorem C4_expired_not_delivered_witness :
    (poll (issue emptyStore true 0) 10).1 = none :=
  C4_expired_not_delivered emptyStore true 0 10 (by simp [emptyStore])
    (by decide)

/-- C2 counterexample: issue "open" at time 0 and "close" at time 5 (no
intervening poll).  The first poll at time 6 returns "close", but the second
poll at time 6 still delivers the earlier command "open": the earlier issued
command is NOT "never delivered by any later poll". -/
theorem C2_counterexample :
    (poll (issue (issue emptyStore true 0) false 5) 6).1 = some "close" ∧
    (poll (poll (issue (issue emptyStore true 0) false 5) 6).2 6).1 =
      some "open" := by
  decide

/-- C2 amended: for every sequence of two or more issues at strictly
increasing timestamps, all inside the freshness window and with no
intervening poll, a poll returns the most recently issued command; but only
the polled record is retired, so the previously issued command, still inside
the freshness window, is delivered by the immediately following poll. -/
theorem C2_amended (s : DoorStore) (cs' : List (Bool × Int)) (b1 b2 : Bool)
    (t1 t2 now : Int)
    (hstale : ∀ r ∈ s.records, r.timestamp ≤ now - COMMAND_TIMEOUT_SECONDS)
    (hchain : (cs' ++ [(b1, t1), (b2, t2)]).Pairwise (fun a b => a.2 < b.2))
    (hfresh : ∀ c ∈ cs' ++ [(b1, t1), (b2, t2)],
      now - COMMAND_TIMEOUT_SECONDS < c.2)
    (hle : t2 ≤ now) :
    (poll (issueSeq s (cs' ++ [(b1, t1), (b2, t2)])) now).1 =
      some (cmdOf b2) ∧
    (poll (poll (issueSeq s (cs' ++ [(b1, t1), (b2, t2)])) now).2 now).1 =
      some (cmdOf b1) := by
  have hpw := List.pairwise_append.mp hchain
  have ht12 : t1 < t2 :=
    (List.pairwise_cons.mp hpw.2.1).1 (b2, t2) (by simp)
  have h_rec := issueSeq_records (cs' ++ [(b1, t1), (b2, t2)]) s
  have hsplit : cs' ++ [(b1, t1), (b2, t2)] =
      (cs' ++ [(b1, t1)]) ++ [(b2, t2)] := by simp
  have hNsplit : newRecs s.nextId (cs' ++ [(b1, t1), (b2, t2)]) =
      newRecs s.nextId (cs' ++ [(b1, t1)]) ++
        [⟨s.nextId + (cs'.length + 1), b2, t2⟩] := by
    rw [hsplit, newRecs_append]
    simp [newRecs]
  have hN1split : newRecs s.nextId (cs' ++ [(b1, t1)]) =
      newRecs s.nextId cs' ++ [⟨s.nextId + cs'.length, b1, t1⟩] := by
    rw [newRecs_append]
    simp [newRecs]
  have hA : ∀ a ∈ newRecs s.nextId (cs' ++ [(b1, t1)]), a.timestamp < t2 := by
    intro a ha
    obtain ⟨⟨c, hc, _, hts⟩, _, _⟩ := mem_newRecs _ _ a ha
    rw [hts]
    rcases List.mem_append.mp hc with hc1 | hc1
    · exact hpw.2.2 c hc1 (b2, t2) (by simp)
    · simp only [List.mem_singleton] at hc1
      subst hc1
      exact ht12
  have hB : ∀ a ∈ newRecs s.nextId (cs' ++ [(b1, t1)]),
      isFresh now a = true := by
    intro a ha
    obtain ⟨⟨c, hc, _, hts⟩, _, _⟩ := mem_newRecs _ _ a ha
    have hcm : c ∈ cs' ++ [(b1, t1), (b2, t2)] := by
      rcases List.mem_append.mp hc with hc1 | hc1
      · exact List.mem_append.mpr (Or.inl hc1)
      · simp only [List.mem_singleton] at hc1
        subst hc1
        simp
    simp only [isFresh, hts, decide_eq_true_eq]
    exact hfresh c hcm
  have hC : ∀ a ∈ newRecs s.nextId (cs' ++ [(b1, t1)]),
      a.id ≠ s.nextId + (cs'.length + 1) := by
    intro a ha
    obtain ⟨_, _, hlt⟩ := mem_newRecs _ _ a ha
    simp only [List.length_append, List.length_singleton] at hlt
    omega
  have hfil1 : selectFresh now (issueSeq s (cs' ++ [(b1, t1), (b2, t2)])).records =
      newRecs s.nextId (cs' ++ [(b1, t1)]) ++
        [⟨s.nextId + (cs'.length + 1), b2, t2⟩] := by
    rw [show (issueSeq s (cs' ++ [(b1, t1), (b2, t2)])).records =
        s.records ++ (newRecs s.nextId (cs' ++ [(b1, t1)]) ++
          [⟨s.nextId + (cs'.length + 1), b2, t2⟩]) from by rw [h_rec, hNsplit]]
    show (s.records ++ _).filter (isFresh now) = _
    rw [List.filter_append, List.filter_append,
      filter_stale_nil now s.records hstale, filter_fresh_self now _ hB]
    have hfr2 : isFresh now ⟨s.nextId + (cs'.length + 1), b2, t2⟩ = true := by
      simp only [isFresh, decide_eq_true_eq]
      exact hfresh (b2, t2) (by simp)
    simp [hfr2]
  have hpick1 : pickLatest (newRecs s.nextId (cs' ++ [(b1, t1)]) ++
      [⟨s.nextId + (cs'.length + 1), b2, t2⟩]) =
      some ⟨s.nextId + (cs'.length + 1), b2, t2⟩ :=
    pickLatest_append_last _ _ hA
  have hpoll1 : poll (issueSeq s (cs' ++ [(b1, t1), (b2, t2)])) now =
      (some (cmdOf b2),
       ⟨retireId (s.nextId + (cs'.length + 1))
          (issueSeq s (cs' ++ [(b1, t1), (b2, t2)])).records,
        (issueSeq s (cs' ++ [(b1, t1), (b2, t2)])).nextId⟩) := by
    unfold poll
    rw [hfil1, hpick1]
    rfl
  refine ⟨by rw [hpoll1], ?_⟩
  rw [hpoll1]
  have hr2ret : retireId (s.nextId + (cs'.length + 1))
      [⟨s.nextId + (cs'.length + 1), b2, t2⟩] =
      [⟨s.nextId + (cs'.length + 1), b2, t2 - RETIRE_OFFSET_SECONDS⟩] := by
    simp [retireId]
  have hret : retireId (s.nextId + (cs'.length + 1))
      (issueSeq s (cs' ++ [(b1, t1), (b2, t2)])).records =
      retireId (s.nextId + (cs'.length + 1)) s.records ++
        (newRecs s.nextId (cs' ++ [(b1, t1)]) ++
          [⟨s.nextId + (cs'.length + 1), b2, t2 - RETIRE_OFFSET_SECONDS⟩]) := by
    rw [h_rec, hNsplit, retireId_append, retireId_append,
      retireId_eq_self _ _ hC, hr2ret]
  have hstale2 : isFresh now
      ⟨s.nextId + (cs'.length + 1), b2, t2 - RETIRE_OFFSET_SECONDS⟩ = false := by
    simp only [isFresh, decide_eq_false_iff_not, not_lt,
      COMMAND_TIMEOUT_SECONDS, RETIRE_OFFSET_SECONDS]
    omega
  have hfil2 : selectFresh now (retireId (s.nextId + (cs'.length + 1))
      (issueSeq s (cs' ++ [(b1, t1), (b2, t2)])).records) =
      newRecs s.nextId (cs' ++ [(b1, t1)]) := by
    rw [hret]
    unfold selectFresh
    rw [List.filter_append, List.filter_append,
      filter_stale_nil now _
        (retireId_le (s.nextId + (cs'.length + 1)) s.records hstale),
      filter_fresh_self now _ hB]
    simp [hstale2]
  have hpick2 : pickLatest (newRecs s.nextId (cs' ++ [(b1, t1)])) =
      some ⟨s.nextId + cs'.length, b1, t1⟩ := by
    rw [hN1split]
    apply pickLatest_append_last
    intro a ha
    obtain ⟨⟨c, hc, _, hts⟩, _, _⟩ := mem_newRecs cs' s.nextId a ha
    rw [hts]
    exact hpw.2.2 c hc (b1, t1) (by simp)
  unfold poll
  dsimp only
  rw [hfil2, hpick2]
  rfl

/-- C2 amended witness: a three-issue sequence on the empty store — open at
4, close at 5, open at 6 — polled twice at time 6: first "open" (the most
recent), then "close" (the previous one). -/
theorem C2_amended_witness :
    (poll (issueSeq emptyStore ([(true, 4)] ++ [(false, 5), (true, 6)])) 6).1 =
      some (cmdOf true) ∧
    (poll (poll (issueSeq emptyStore
      ([(true, 4)] ++ [(false, 5), (true, 6)])) 6).2 6).1 =
      some (cmdOf false) :=
  C2_amended emptyStore [(true, 4)] false true 5 6 6 (by simp [emptyStore])
    (by decide) (by decide) (by decide)

/-- C3 counterexample: a record inserted via `POST /api/door_log` with a
timestamp inside the freshness window IS returned by an immediate poll:
log entries do participate in the delivery logic. -/
theorem C3_counterexample :
    (poll (logRecord emptyStore true 100) 100).1 = some "open" := by
  decide

/-- C3 amended: a record inserted via `POST /api/door_log` whose timestamp
lies outside the freshness window at poll time does not change the polled
command; a log entry with a fresh timestamp is delivered exactly like an
issued command (see the counterexample). -/
theorem C3_amended (s : DoorStore) (b : Bool) (ts now : Int)
    (h : ts ≤ now - COMMAND_TIMEOUT_SECONDS) :
    (poll (logRecord s b ts) now).1 = (poll s now).1 := by
  apply poll_fst_eq_of_selectFresh_eq
  show (s.records ++ [(⟨s.nextId, b, ts⟩ : DoorRecord)]).filter (isFresh now) = _
  rw [List.filter_append]
  have : [(⟨s.nextId, b, ts⟩ : DoorRecord)].filter (isFresh now) = [] := by
    apply filter_stale_nil
    intro r hr
    simp only [List.mem_singleton] at hr
    subst hr
    exact h
  rw [this, List.append_nil]
  rfl

/-- C3 amended witness: a stale log entry (timestamp 0, poll at 10) leaves
the polled command of the empty store unchanged. -/
theorem C3_amended_witness :
    (poll (logRecord emptyStore true 0) 10).1 = (poll emptyStore 10).1 :=
  C3_amended emptyStore true 0 10 (by decide)

/-! ## Python values and `float(...)` coercion

Python floats are rationals extended with the IEEE special values; `float()`
over the JSON-decoded payload values either yields such a float or raises
(`ValueError`/`TypeError`), modelled by `Option`. -/

inductive PyFloat where
  | finite (q : ℚ)
  | nan
  | inf
  | ninf
deriving Repr, DecidableEq

/-- IEEE-754 `<=`: any comparison involving NaN is false. -/
def PyFloat.le : PyFloat → PyFloat → Bool
  | nan, _ => false
  | _, nan => false
  | ninf, _ => true
  | _, inf => true
  | inf, _ => false
  | _, ninf => false
  | finite a, finite b => decide (a ≤ b)

inductive PyVal where
  | pyfloat (f : PyFloat)
  | pyint (n : ℤ)
  | pybool (b : Bool)
  | pystr (s : String)
  | pynone
deriving Repr, DecidableEq

/-- ASCII lower-casing, Python `str.lower()` on the payloads in play. -/
def lowerChars (cs : List Char) : List Char := cs.map Char.toLower

/-- Python `str.strip()` whitespace (the ASCII whitespace characters). -/
def isSpaceChar (c : Char) : Bool :=
  c = ' ' || c = '\t' || c = '\n' || c = '\r' || c = '\x0b' || c = '\x0c'

def stripChars (cs : List Char) : List Char :=
  ((cs.dropWhile isSpaceChar).reverse.dropWhile isSpaceChar).reverse

def digitsVal (cs : List Char) : ℕ :=
  cs.foldl (fun a c => a * 10 + (c.toNat - 48)) 0

def parseExpPart (v : ℚ) (cs : List Char) : Option ℚ :=
  match cs with
  | [] => some v
  | 'e' :: rest =>
      let p :=
        match rest with
        | '+' :: r => (false, r)
        | '-' :: r => (true, r)
        | r => (false, r)
      let q := p.2.span Char.isDigit
      if q.1.isEmpty ∨ ¬ q.2.isEmpty then none
      else
        let e : ℤ := if p.1 then -(digitsVal q.1 : ℤ) else (digitsVal q.1 : ℤ)
        some (v * (10 : ℚ) ^ e)
  | _ => none

def parseDecimal (cs : List Char) : Option ℚ :=
  let p := cs.span Char.isDigit
  match p.2 with
  | '.' :: rest2 =>
      let q := rest2.span Char.isDigit
      if p.1.isEmpty ∧ q.1.isEmpty then none
      else
        parseExpPart
          ((digitsVal p.1 : ℚ) + (digitsVal q.1 : ℚ) / (10 : ℚ) ^ q.1.length)
          q.2
  | _ => if p.1.isEmpty then none else parseExpPart (digitsVal p.1 : ℚ) p.2

def parseBody (neg : Bool) (cs : List Char) : Option PyFloat :=
  if cs = ['n', 'a', 'n'] then some PyFloat.nan
  else if cs = ['i', 'n', 'f'] ∨ cs = ['i', 'n', 'f', 'i', 'n', 'i', 't', 'y'] then
    some (if neg then PyFloat.ninf else PyFloat.inf)
  else
    match parseDecimal cs with
    | some q => some (PyFloat.finite (if neg then -q else q))
    | none => none

/-- Python `float(str)`: strip whitespace, optional sign, then `nan`, `inf`,
`infinity` (case-insensitive) or a decimal literal with optional fractional
part and exponent.  (Digit-group underscores are not modelled.) -/
def parsePyFloat (s : String) : Option PyFloat :=
  match lowerChars (stripChars s.toList) with
  | '+' :: rest => parseBody false rest
  | '-' :: rest => parseBody true rest
  | rest => parseBody false rest

/-- Python `float(x)` over the modelled payload values: floats pass through,
ints and bools convert exactly, strings are parsed, `None` raises
(`TypeError`, modelled as `none`). -/
def pyFloatOf : PyVal → Option PyFloat
  | PyVal.pyfloat f => some f
  | PyVal.pyint n => some (PyFloat.finite (n : ℚ))
  | PyVal.pybool b => some (PyFloat.finite (if b then 1 else 0))
  | PyVal.pystr s => parsePyFloat s
  | PyVal.pynone => none

/-! ## validate_sensor_data (src/app.py lines 68-82 = src/main.py 111-134) -/

def tempRangeError : String :=
  "Temperatur skal være mellem -50.0 og 100.0°C"

def humidityRangeError : String :=
  "Fugtighed skal være mellem 0.0 og 100.0%"

def notNumericError : String :=
  "Temperatur og fugtighed skal være numeriske værdier"

def validate_sensor_data (temperature humidity : PyVal) :
    Bool × String × Option (PyFloat × PyFloat) :=
  match pyFloatOf temperature, pyFloatOf humidity with
  | some t, some h =>
      if !(PyFloat.le (PyFloat.finite MIN_TEMPERATURE) t &&
            PyFloat.le t (PyFloat.finite MAX_TEMPERATURE)) then
        (false, tempRangeError, none)
      else if !(PyFloat.le (PyFloat.finite MIN_HUMIDITY) h &&
            PyFloat.le h (PyFloat.finite MAX_HUMIDITY)) then
        (false, humidityRangeError, none)
      else (true, "", some (t, h))
  | _, _ => (false, notNumericError, none)

/-- C6: for inputs coercible by `float()` to finite values inside the
temperature and humidity bounds, `validate_sensor_data` succeeds and returns
exactly the parsed floats. -/
theorem C6_validate_in_range (tv hv : PyVal) (t h : ℚ)
    (ht : pyFloatOf tv = some (PyFloat.finite t))
    (hh : pyFloatOf hv = some (PyFloat.finite h))
    (ht1 : MIN_TEMPERATURE ≤ t) (ht2 : t ≤ MAX_TEMPERATURE)
    (hh1 : MIN_HUMIDITY ≤ h) (hh2 : h ≤ MAX_HUMIDITY) :
    validate_sensor_data tv hv =
      (true, "", some (PyFloat.finite t, PyFloat.finite h)) := by
  unfold validate_sensor_data
  rw [ht, hh]
  simp [PyFloat.le, ht1, ht2, hh1, hh2]

/-- C6 witness: the numeric string "23" and the integer 40. -/
theorem C6_validate_in_range_witness :
    validate_sensor_data (PyVal.pystr "23") (PyVal.pyint 40) =
      (true, "", some (PyFloat.finite 23, PyFloat.finite 40)) :=
  C6_validate_in_range (PyVal.pystr "23") (PyVal.pyint 40) 23 40
    (by decide) (by decide) (by decide) (by decide) (by decide) (by decide)

/-- C9: a NaN input passes the `float()` coercion (no not-numeric error) and
fails the range check, yielding the out-of-range error of its field: the
temperature message when temperature is NaN (humidity coercible), the
humidity message when humidity is NaN (temperature finite and in range). -/
theorem C9_nan_range_error :
    (∀ hv f, pyFloatOf hv = some f →
      validate_sensor_data (PyVal.pyfloat PyFloat.nan) hv =
        (false, tempRangeError, none)) ∧
    (∀ tv t, pyFloatOf tv = some (PyFloat.finite t) →
      MIN_TEMPERATURE ≤ t → t ≤ MAX_TEMPERATURE →
      validate_sensor_data tv (PyVal.pyfloat PyFloat.nan) =
        (false, humidityRangeError, none)) := by
  constructor
  · intro hv f hf
    unfold validate_sensor_data
    rw [show pyFloatOf (PyVal.pyfloat PyFloat.nan) = some PyFloat.nan from rfl,
      hf]
    simp [PyFloat.le]
  · intro tv t ht h1 h2
    unfold validate_sensor_data
    rw [ht,
      show pyFloatOf (PyVal.pyfloat PyFloat.nan) = some PyFloat.nan from rfl]
    simp [PyFloat.le, h1, h2]

/-- C9 witness: NaN temperature with humidity 50 yields the temperature
range error. -/
theorem C9_nan_range_error_witness :
    validate_sensor_data (PyVal.pyfloat PyFloat.nan) (PyVal.pyint 50) =
      (false, tempRangeError, none) :=
  C9_nan_range_error.1 (PyVal.pyint 50) (PyFloat.finite 50) rfl

/-! ## calculate_window_status (src/app.py lines 85-105)

The dashboard feeds this function stored (validated, hence finite) floats,
so it is modelled over ℚ.  The f-string renderings of the numbers are
abstracted by `toString`; the claims concern which reasons appear and in
which order, not the digit rendering. -/

def fmtTempReason (t : ℚ) : String :=
  "Temp " ++ toString t ++ "°C > " ++ toString WINDOW_TEMP_THRESHOLD ++ "°C"

def fmtHumidityReason (h : ℚ) : String :=
  "Fugt " ++ toString h ++ "% > " ++ toString WINDOW_HUMIDITY_THRESHOLD ++ "%"

def normalValuesReason : String := "Normale værdier"

structure WindowStatus where
  status : String
  should_open : Bool
  reason : String
  temp_trigger : Bool
  humidity_trigger : Bool
deriving Repr, DecidableEq

/-- The `reason` list as built by lines 89-97: one entry per fired trigger,
temperature first, then the "Normale værdier" fallback when empty. -/
def windowReasons (temperature humidity : ℚ) : List String :=
  let reason :=
    (if temperature > WINDOW_TEMP_THRESHOLD then [fmtTempReason temperature]
     else []) ++
    (if humidity > WINDOW_HUMIDITY_THRESHOLD then [fmtHumidityReason humidity]
     else [])
  if reason = [] then [normalValuesReason] else reason

def calculate_window_status (temperature humidity : ℚ) : WindowStatus :=
  let should_open := decide (temperature > WINDOW_TEMP_THRESHOLD) ||
    decide (humidity > WINDOW_HUMIDITY_THRESHOLD)
  { status := if should_open then "Åben" else "Lukket"
    should_open := should_open
    reason := String.intercalate " | " (windowReasons temperature humidity)
    temp_trigger := decide (temperature > WINDOW_TEMP_THRESHOLD)
    humidity_trigger := decide (humidity > WINDOW_HUMIDITY_THRESHOLD) }

/-- C5: `should_open` is the disjunction of the two strict threshold
comparisons, the triggers are the independent comparisons, and the reason
list holds one formatted entry per fired trigger in the order
[temperature, humidity], or exactly the "Normale værdier" marker when
neither fires. -/
theorem C5_window_advisory (t h : ℚ) :
    (calculate_window_status t h).should_open =
      (decide (t > WINDOW_TEMP_THRESHOLD) ||
        decide (h > WINDOW_HUMIDITY_THRESHOLD)) ∧
    (calculate_window_status t h).temp_trigger =
      decide (t > WINDOW_TEMP_THRESHOLD) ∧
    (calculate_window_status t h).humidity_trigger =
      decide (h > WINDOW_HUMIDITY_THRESHOLD) ∧
    windowReasons t h =
      (if t > WINDOW_TEMP_THRESHOLD ∨ h > WINDOW_HUMIDITY_THRESHOLD then
        (if t > WINDOW_TEMP_THRESHOLD then [fmtTempReason t] else []) ++
          (if h > WINDOW_HUMIDITY_THRESHOLD then [fmtHumidityReason h] else [])
      else [normalValuesReason]) ∧
    (calculate_window_status t h).reason =
      String.intercalate " | " (windowReasons t h) := by
  refine ⟨rfl, rfl, rfl, ?_, rfl⟩
  unfold windowReasons
  by_cases h1 : t > WINDOW_TEMP_THRESHOLD <;>
    by_cases h2 : h > WINDOW_HUMIDITY_THRESHOLD <;>
      simp [h1, h2]

/-! ## HTTP handlers -/

/-- Python `str.strip()`. -/
def pyStrip (s : String) : String := String.mk (stripChars s.toList)

/-- Python `str.lower()` (ASCII). -/
def pyLower (s : String) : String := String.mk (lowerChars s.toList)

/-- Python truthiness of the modelled values (`not x`). -/
def pyTruthy : PyVal → Bool
  | PyVal.pynone => false
  | PyVal.pybool b => b
  | PyVal.pyint n => decide (n ≠ 0)
  | PyVal.pyfloat (PyFloat.finite q) => decide (q ≠ 0)
  | PyVal.pyfloat _ => true
  | PyVal.pystr s => decide (s ≠ "")

structure TempFugtRow where
  temperatur : PyFloat
  fugtighed : PyFloat
  timestamp : String
deriving Repr, DecidableEq

/-- `POST /api/temp_fugt` (src/app.py lines 279-341): HTTP status plus the
`temp_fugt` table after the call.  A missing JSON field and a field holding
JSON null both read back as Python `None` (`pynone`).  `dbOk` models whether
a database connection could be acquired; query-level failures (which also
roll back) are not modelled. -/
def api_temp_fugt (temperatur fugtighed timestamp : PyVal) (dbOk : Bool)
    (db : List TempFugtRow) : Nat × List TempFugtRow :=
  if temperatur = PyVal.pynone ∨ fugtighed = PyVal.pynone ∨
      timestamp = PyVal.pynone then
    (400, db)
  else
    match validate_sensor_data temperatur fugtighed with
    | (true, _, some (t, h)) =>
        match timestamp with
        | PyVal.pystr s =>
            if pyStrip s = "" then (400, db)
            else if dbOk then (201, db ++ [⟨t, h, pyStrip s⟩])
            else (500, db)
        | _ => (400, db)
    | _ => (400, db)

/-- C7: a `POST /api/temp_fugt` payload whose `fugtighed` (humidity) field —
or any required field — is missing returns 400 and leaves the stored
readings unchanged. -/
theorem C7_missing_field_no_insert (temperatur fugtighed timestamp : PyVal)
    (dbOk : Bool) (db : List TempFugtRow)
    (h : temperatur = PyVal.pynone ∨ fugtighed = PyVal.pynone ∨
      timestamp = PyVal.pynone) :
    api_temp_fugt temperatur fugtighed timestamp dbOk db = (400, db) := by
  unfold api_temp_fugt
  rw [if_pos h]

/-- C7 witness: a payload with temperature 20 and a timestamp but no
humidity field. -/
theorem C7_missing_field_no_insert_witness :
    api_temp_fugt (PyVal.pyint 20) PyVal.pynone
      (PyVal.pystr "2024-01-01T00:00:00") true [] = (400, []) :=
  C7_missing_field_no_insert (PyVal.pyint 20) PyVal.pynone
    (PyVal.pystr "2024-01-01T00:00:00") true [] (Or.inr (Or.inl rfl))

structure DoorLogRow where
  is_the_door_open : Bool
  timestamp : PyVal
deriving Repr, DecidableEq

/-- The boolean normalisation in `api_door_log` (src/app.py lines 491-494):
ints (and Python bools, which are ints) go through `bool(...)`, strings
through the truthy-string set; any other value is passed through unconverted
and the boolean column rejects it (storage error, modelled by `none`). -/
def doorLogCoerce : PyVal → Option Bool
  | PyVal.pybool b => some b
  | PyVal.pyint n => some (decide (n ≠ 0))
  | PyVal.pystr s => some (decide (pyLower s ∈ ["true", "1", "yes", "on"]))
  | _ => none

/-- `POST /api/door_log` (src/app.py lines 475-521): HTTP status and the
handler-level view of the `door` table (stored flag plus the raw
client-supplied timestamp value). -/
def api_door_log (is_open timestamp : PyVal) (dbOk : Bool)
    (db : List DoorLogRow) : Nat × List DoorLogRow :=
  if is_open = PyVal.pynone ∨ pyTruthy timestamp = false then (400, db)
  else if dbOk = false then (500, db)
  else
    match doorLogCoerce is_open with
    | some b => (201, db ++ [⟨b, timestamp⟩])
    | none => (500, db)

/-- C10: a non-empty string `is_open` whose lowercase form is outside
{"true","1","yes","on"} is not rejected: it is coerced to `false`, a record
with `is_open = false` is stored, and 201 is returned. -/
theorem C10_other_string_stored_false (s : String) (timestamp : PyVal)
    (db : List DoorLogRow) (_hne : s ≠ "")
    (hmem : pyLower s ∉ ["true", "1", "yes", "on"])
    (hts : pyTruthy timestamp = true) :
    api_door_log (PyVal.pystr s) timestamp true db =
      (201, db ++ [⟨false, timestamp⟩]) := by
  have h1 : ¬ (PyVal.pystr s = PyVal.pynone ∨ pyTruthy timestamp = false) := by
    simp [hts]
  have h2 : doorLogCoerce (PyVal.pystr s) = some false := by
    simp [doorLogCoerce, hmem]
  unfold api_door_log
  rw [if_neg h1, if_neg (by simp), h2]

/-- C10 witness: the string "maybe" with a timestamp string. -/
theorem C10_other_string_stored_false_witness :
    api_door_log (PyVal.pystr "maybe") (PyVal.pystr "2024-01-01T00:00:00")
      true [] =
      (201, [⟨false, PyVal.pystr "2024-01-01T00:00:00"⟩]) :=
  C10_other_string_stored_false "maybe" (PyVal.pystr "2024-01-01T00:00:00")
    [] (by decide) (by decide) (by decide)

/-! ## login (src/app.py lines 134-184 = src/main.py 186-268) -/

structure UserRec where
  id : Nat
  username : String
  password : String
deriving Repr, DecidableEq

inductive LoginResult where
  | redirectHome (user : String) (user_id : Nat)
  | loginPage (error : Option String)
deriving Repr, DecidableEq

/-- `validate_input` (src/app.py lines 118-125). -/
def validate_input (data : String) (max_length : Nat) : Bool × String :=
  if data = "" ∨ pyStrip data = "" then (false, "Input må ikke være tom")
  else if data.length > max_length then
    (false, "Input må maksimalt være " ++ toString max_length ++ " tegn")
  else (true, "")

/-- `SELECT id, username, password FROM users WHERE username = %s` with
`fetchone()`. -/
def findUser (users : List UserRec) (username : String) : Option UserRec :=
  users.find? (fun u => u.username == username)

def loginFailedError : String := "Forkert brugernavn eller password"

/-- `POST /login`: `users` is the users table, `dbOk` whether a connection
could be acquired. -/
def login (usernameForm passwordForm : String) (users : List UserRec)
    (dbOk : Bool) : LoginResult :=
  let username := pyStrip usernameForm
  let password := passwordForm
  let uv := validate_input username MAX_INPUT_LENGTH
  if uv.1 = false then LoginResult.loginPage (some uv.2)
  else
    let pv := validate_input password MAX_INPUT_LENGTH
    if pv.1 = false then LoginResult.loginPage (some pv.2)
    else if dbOk = false then
      LoginResult.loginPage (some "Database forbindelsesfejl")
    else
      match findUser users username with
      | some u =>
          if password = u.password then
            LoginResult.redirectHome u.username u.id
          else LoginResult.loginPage (some loginFailedError)
      | none => LoginResult.loginPage (some loginFailedError)

/-- C8: with the database reachable and both inputs passing validation, a
login with an existing username but wrong password and a login with a
nonexistent username both produce exactly the login page with the one
generic error — identical responses, so the caller cannot tell the cases
apart. -/
theorem C8_login_enumeration_safe (users : List UserRec)
    (u1 p1 u2 p2 : String) (r : UserRec)
    (hu1 : validate_input (pyStrip u1) MAX_INPUT_LENGTH = (true, ""))
    (hp1 : validate_input p1 MAX_INPUT_LENGTH = (true, ""))
    (hu2 : validate_input (pyStrip u2) MAX_INPUT_LENGTH = (true, ""))
    (hp2 : validate_input p2 MAX_INPUT_LENGTH = (true, ""))
    (hfound : findUser users (pyStrip u1) = some r)
    (hwrong : p1 ≠ r.password)
    (hmissing : findUser users (pyStrip u2) = none) :
    login u1 p1 users true = LoginResult.loginPage (some loginFailedError) ∧
    login u2 p2 users true = LoginResult.loginPage (some loginFailedError) := by
  constructor
  · unfold login
    simp [hu1, hp1, hfound, hwrong]
  · unfold login
    simp [hu2, hp2, hmissing]

/-- C8 witness: the table [(1, "alice", "hemmelig")], a wrong-password
attempt for "alice" and an attempt for the unknown "bob". -/
theorem C8_login_enumeration_safe_witness :
    login "alice" "forkert" [⟨1, "alice", "hemmelig"⟩] true =
      LoginResult.loginPage (some loginFailedError) ∧
    login "bob" "whatever" [⟨1, "alice", "hemmelig"⟩] true =
      LoginResult.loginPage (some loginFailedError) :=
  C8_login_enumeration_safe [⟨1, "alice", "hemmelig"⟩]
    "alice" "forkert" "bob" "whatever" ⟨1, "alice", "hemmelig"⟩
    (by decide) (by decide) (by decide) (by decide)
    (by decide) (by decide) (by decide)
